import Mathlib

/-!
Shallow embedding of the DrugScanner repository.

The repository has three JavaScript sources:
* `src/api/identify.js` — a serverless request handler that proxies one
  lookup against the openFDA API (plus, concatenated in the same file, a
  service worker and a second front-end variant `script.js`);
* `src/unnamed/part_000` — an express server wiring the handler;
* `src/unnamed/part_001` — the front-end wizard variant with per-step
  review/confirm and an IndexedDB-persisted session.

Pure logic is translated into Lean functions; the DOM, IndexedDB and the
network are modelled by explicit state records and by a fetch oracle passed
as a function argument.  JavaScript truthiness of optional string fields is
modelled by `truthy`; a JS value that may be `undefined` is an `Option`.
-/

namespace DrugScanner

/-! ## Lookup handler (`src/api/identify.js`, `handler`) -/

/-- Identity fields the handler reads from the request body
(`data.identity`).  Each is an optional string; an absent field is `none`,
a present field holds `some` of its value. -/
structure Identity where
  ndc : Option String
  product_ndc : Option String
  brand_name : Option String
  generic_name : Option String
  dosage_form : Option String
deriving DecidableEq, Repr

/-- The default of `identity = data.identity || ...`: the empty object. -/
def emptyIdentity : Identity :=
  { ndc := none, product_ndc := none, brand_name := none,
    generic_name := none, dosage_form := none }

/-- JavaScript truthiness of an optional string field: `undefined` and the
empty string are falsy, every other string is truthy. -/
def truthy : Option String → Bool
  | none => false
  | some s => decide (s ≠ "")

/-- The digit filter `barcode.replace(...)`: keep only the decimal digits. -/
def digitsOnly (barcode : String) : String :=
  String.mk (barcode.data.filter Char.isDigit)

/-- The query the handler builds: `queryUrl` targets either the
`drug/ndc.json` endpoint searched by product code, or the
`drug/label.json` endpoint with a search string. -/
inductive Query
  | ndc (code : String)
  | label (search : String)
deriving DecidableEq, Repr

/-- Search part `openfda.brand_name.exact` for a value. -/
def brandPart (v : String) : String :=
  "openfda.brand_name.exact:\"" ++ v ++ "\""

/-- Search part `openfda.generic_name.exact` for a value. -/
def genericPart (v : String) : String :=
  "openfda.generic_name.exact:\"" ++ v ++ "\""

/-- Search part `openfda.dosage_form.exact` for a value. -/
def dosagePart (v : String) : String :=
  "openfda.dosage_form.exact:\"" ++ v ++ "\""

/-- The `parts` array the handler pushes for the label query: one part per
truthy field among brand name, generic name, dosage form, in that order. -/
def labelParts (identity : Identity) : List String :=
  (if truthy identity.brand_name then [brandPart (identity.brand_name.getD "")] else []) ++
  (if truthy identity.generic_name then [genericPart (identity.generic_name.getD "")] else []) ++
  (if truthy identity.dosage_form then [dosagePart (identity.dosage_form.getD "")] else [])

/-- Query construction of `handler` (identify.js lines 113–132): prefer the
identity's NDC/product code, else a 10/11/12-digit scanned code, else an
exact-match label search over brand/generic/dosage form joined with
`+AND+`, else no query. -/
def buildQuery (identity : Identity) (barcode : String) : Option Query :=
  let d := digitsOnly barcode
  if truthy identity.ndc || truthy identity.product_ndc then
    some (Query.ndc (if truthy identity.ndc then identity.ndc.getD ""
                     else identity.product_ndc.getD ""))
  else if d ≠ "" ∧ (d.length = 10 ∨ d.length = 11 ∨ d.length = 12) then
    some (Query.ndc d)
  else if truthy identity.brand_name || truthy identity.generic_name then
    some (Query.label (String.intercalate "+AND+" (labelParts identity)))
  else
    none

/-- The URL string fetched for a query (percent-encoding of the embedded
code is not modelled: the claims only inspect which query is issued). -/
def queryUrl : Query → String
  | Query.ndc code =>
      "https://api.fda.gov/drug/ndc.json?search=product_ndc:" ++ code ++ "&limit=1"
  | Query.label search =>
      "https://api.fda.gov/drug/label.json?search=" ++ search ++ "&limit=1"

/-- Harmonized `openfda` section of a remote result.  Only the fields a
claim can observe are carried; the remaining projected fields of
`mapOpenFdaResult` are analogous and unused by every claim. -/
structure OpenFda where
  brand_name : List String
  generic_name : List String
  product_ndc : List String
deriving DecidableEq, Repr

/-- A raw result object from openFDA as the handler reads it. -/
structure FdaResult where
  openfda : Option OpenFda
deriving DecidableEq, Repr

/-- The normalized drug record `mapOpenFdaResult` produces. -/
structure Drug where
  brand_name : Option String
  generic_name : Option String
  ndc : Option String
deriving DecidableEq, Repr

/-- The projection `mapOpenFdaResult` on a non-null result: project the first element of
each harmonized array (`of.brand_name ? of.brand_name[0] : undefined`); an
absent `openfda` section behaves as the empty object. -/
def mapOpenFdaResult (result : FdaResult) : Drug :=
  let of := result.openfda.getD { brand_name := [], generic_name := [], product_ndc := [] }
  { brand_name := of.brand_name.head?,
    generic_name := of.generic_name.head?,
    ndc := of.product_ndc.head? }

/-- A provenance source entry `{ name, url }`. -/
structure Source where
  name : String
  url : String
deriving DecidableEq, Repr

/-- Outcome of `doFetch(queryUrl)`: the promise rejects (any transport
error or thrown exception), or resolves with a status code and the parsed
`json.results || []` array. -/
inductive FetchOutcome
  | reject
  | resp (status : Nat) (results : List FdaResult)
deriving DecidableEq, Repr

/-- The parsed request body `{ identity, barcode }`; either field may be
absent. -/
structure ReqData where
  identity : Option Identity
  barcode : Option String
deriving DecidableEq, Repr

/-- The buffered request body as `JSON.parse(body || '{}')` sees it:
zero bytes (so the `'{}'` default is parsed), a parseable JSON object, or
present-but-unparseable text. -/
inductive RawBody
  | empty
  | json (data : ReqData)
  | malformed
deriving DecidableEq, Repr

/-- Parsing `JSON.parse(body || ...)` as the handler runs it: an empty body
defaults to `'{}'`, which parses to the object with neither field;
unparseable text throws, modelled as `none`. -/
def parseBody : RawBody → Option ReqData
  | RawBody.empty => some { identity := none, barcode := none }
  | RawBody.json d => some d
  | RawBody.malformed => none

/-- The JSON body the handler ends the response with. -/
inductive RespBody
  | errMethodNotAllowed
  | errInvalidJson
  | notFound
  | ok (drug : Drug) (sources : List Source)
deriving DecidableEq, Repr

/-- The HTTP response: `res.statusCode` and the JSON body. -/
structure HttpResponse where
  statusCode : Nat
  body : RespBody
deriving DecidableEq, Repr

/-- The exported `handler` of identify.js, with the network abstracted as
the `fetch` oracle.  Returns the response together with the list of queries
actually fetched (so that "no network call is made" is observable). -/
def handler (method : String) (body : RawBody) (fetch : Query → FetchOutcome) :
    HttpResponse × List Query :=
  if method ≠ "POST" then
    ({ statusCode := 405, body := RespBody.errMethodNotAllowed }, [])
  else
    match parseBody body with
    | none => ({ statusCode := 400, body := RespBody.errInvalidJson }, [])
    | some data =>
      let identity := data.identity.getD emptyIdentity
      let barcode := data.barcode.getD ""
      match buildQuery identity barcode with
      | none => ({ statusCode := 200, body := RespBody.notFound }, [])
      | some q =>
        match fetch q with
        | FetchOutcome.reject =>
            ({ statusCode := 200, body := RespBody.notFound }, [q])
        | FetchOutcome.resp status results =>
            if status = 200 then
              match results with
              | [] => ({ statusCode := 200, body := RespBody.notFound }, [q])
              | r :: _ =>
                  ({ statusCode := 200,
                     body := RespBody.ok (mapOpenFdaResult r)
                       [{ name := "openFDA", url := queryUrl q }] }, [q])
            else ({ statusCode := 200, body := RespBody.notFound }, [q])

/-! ## Capture wizard (`src/unnamed/part_001`)

The wizard variant with a per-step review/confirm gate.  Its mutable
globals `imageCounter`, `capturedImages`, `currentDraft`, and the two
IndexedDB object stores (`session` under key `drug_scanner_session`,
`settings` under key `geminiKey`) are gathered into one state record; each
click handler becomes a function on that record. -/

/-- The persisted session record `{ imageCounter, capturedImages }`
written by `saveSession` under `SESSION_ID`. -/
structure Session where
  imageCounter : Nat
  capturedImages : List String
deriving DecidableEq, Repr

/-- What the UI currently shows, abstracting the hidden/shown containers:
the scan prompt (`showCurrentStep` with counter < 2), the review screen,
the analysis pipeline (`processImages` running), or nothing
(`showCurrentStep` with counter ≥ 2 returns early). -/
inductive Phase
  | idle
  | reviewing
  | finalizing
  | blank
deriving DecidableEq, Repr

/-- The function `showCurrentStep`: hides review/loading/results, then returns early
when `imageCounter >= 2`, else shows the scan prompt. -/
def showCurrentStepPhase (imageCounter : Nat) : Phase :=
  if 2 ≤ imageCounter then Phase.blank else Phase.idle

/-- The whole in-memory and persisted state of the part_001 front end.
An image payload (a JPEG data URI) is an opaque string. -/
structure AppState where
  imageCounter : Nat
  capturedImages : List String
  currentDraft : Option String
  storedSession : Option Session
  storedKey : Option String
  phase : Phase
deriving DecidableEq, Repr

/-- Successful file processing (fileInput change handler, lines 126–147):
`compressImage` resolves, the result becomes `currentDraft` and the review
screen is shown. -/
def capture (img : String) (s : AppState) : AppState :=
  { s with currentDraft := some img, phase := Phase.reviewing }

/-- The `retakeButton` click handler (lines 150–153): drop the draft and show
the current step again. -/
def retake (s : AppState) : AppState :=
  { s with currentDraft := none, phase := showCurrentStepPhase s.imageCounter }

/-- The `confirmButton` click handler (lines 155–168) as its sequence of
atomic state changes, in source order: push the draft onto
`capturedImages`, increment `imageCounter`, `saveSession()` (one `put` of
`{ imageCounter, capturedImages }`), clear the draft, then either start
`processImages` or show the next step.  An absent draft returns early with
no state change (empty trace). -/
def confirmTrace (s : AppState) : List AppState :=
  match s.currentDraft with
  | none => []
  | some d =>
    let s1 := { s with capturedImages := s.capturedImages ++ [d] }
    let s2 := { s1 with imageCounter := s1.imageCounter + 1 }
    let s3 := { s2 with storedSession := some ⟨s2.imageCounter, s2.capturedImages⟩ }
    let s4 := { s3 with currentDraft := none }
    let s5 := { s4 with phase :=
        if 2 ≤ s4.imageCounter then Phase.finalizing
        else showCurrentStepPhase s4.imageCounter }
    [s1, s2, s3, s4, s5]

/-- The confirm operation: the state after the whole handler ran. -/
def confirm (s : AppState) : AppState :=
  ((confirmTrace s).getLast?).getD s

/-- Index in `confirmTrace` of the first state whose persisted session
record differs from the starting one: when the store write lands. -/
def firstPersistIdx (s : AppState) : Option Nat :=
  (confirmTrace s).findIdx? (fun t => decide (t.storedSession ≠ s.storedSession))

/-- Index in `confirmTrace` of the first state whose in-memory
`imageCounter` differs from the starting one: when the index advances. -/
def firstAdvanceIdx (s : AppState) : Option Nat :=
  (confirmTrace s).findIdx? (fun t => decide (t.imageCounter ≠ s.imageCounter))

/-- The ordering C1 asserts: during confirm, the store write strictly
precedes the in-memory index advance. -/
def persistBeforeAdvance (s : AppState) : Prop :=
  ∃ i j, firstPersistIdx s = some i ∧ firstAdvanceIdx s = some j ∧ i < j

/-- A retake followed by a fresh capture, iterated over a list of draft
images (the "any number of retakes" of C2). -/
def retakeCycles : List String → AppState → AppState
  | [], s => s
  | img :: rest, s => retakeCycles rest (capture img (retake s))

/-- The `scanButton` click handler's reset branch (lines 107–118, taken
when `imageCounter >= 2`): `clearSession()` deletes the session record,
the counter and image list return to their initial empty values, and the
scan prompt is shown.  `clearSession` touches only the `session` store, so
`storedKey` (the `geminiKey` record of the `settings` store) is carried
over unchanged, as is the draft. -/
def resetFlow (s : AppState) : AppState :=
  { s with storedSession := none, imageCounter := 0, capturedImages := [],
           phase := showCurrentStepPhase 0 }

/-! ## The second front-end variant (`script.js` inside identify.js) -/

/-- Global state of the script.js variant: `step` and `capturedImages`
(this variant has no draft and no persisted session). -/
structure AppStateB where
  step : Nat
  capturedImages : List String
deriving DecidableEq, Repr

/-- The `captureBtn` click handler of script.js (identify.js lines 352–374):
push the captured frame and increment `step`. -/
def captureB (img : String) (s : AppStateB) : AppStateB :=
  { s with capturedImages := s.capturedImages ++ [img], step := s.step + 1 }

/-- The `retakeBtn` click handler of script.js (identify.js lines 376–388):
`capturedImages.length = 0; step = 0;` — both captured images are
discarded and the flow restarts from step 0. -/
def retakeB (s : AppStateB) : AppStateB :=
  { s with capturedImages := [], step := 0 }

/-! ## Image normalization (`compressImage`, part_001 lines 83–104) -/

/-- Rounding `Math.round` of the non-negative rational `num / den`: round half
up, `⌊num / den + 1 / 2⌋`. -/
def jsRound (num den : Nat) : Nat :=
  (2 * num + den) / (2 * den)

/-- The output payload's observable data: dimensions, mime type and the
encoder quality passed to `canvas.toDataURL('image/jpeg', 0.8)`. -/
structure ImagePayloadMeta where
  width : Nat
  height : Nat
  mime : String
  quality : ℚ
deriving DecidableEq, Repr

/-- The `compressImage` dimension and encoding logic: with `MAX = 1024`,
`if (w > h && w > MAX) { h = round(h*MAX/w); w = MAX }
else if (h > MAX) { w = round(w*MAX/h); h = MAX }`, then re-encode as
JPEG at quality 0.8. -/
def compressImage (w h : Nat) : ImagePayloadMeta :=
  if w > h ∧ w > 1024 then
    { width := 1024, height := jsRound (h * 1024) w,
      mime := "image/jpeg", quality := 0.8 }
  else if h > 1024 then
    { width := jsRound (w * 1024) h, height := 1024,
      mime := "image/jpeg", quality := 0.8 }
  else
    { width := w, height := h, mime := "image/jpeg", quality := 0.8 }

/-! ## Result presentation (`displayResult`, part_001 lines 270–313) -/

/-- The `identity` object of an extraction result; only `confidence` is
branched on (`data.identity.confidence < 0.4`, with an absent field
comparing as `NaN < 0.4 = false`). -/
structure IdentityRec where
  name : Option String
  confidence : Option ℚ
deriving DecidableEq, Repr

/-- An extraction result record as `displayResult` reads it. -/
structure ResultData where
  identity : Option IdentityRec
  search_fallback : Bool
deriving DecidableEq, Repr

/-- The JavaScript comparison `confidence < 0.4`: false when the field is
absent (`undefined < 0.4` is `false`), else the numeric comparison. -/
def jsLtThreshold : Option ℚ → Bool
  | none => false
  | some c => decide (c < 0.4)

/-- What `displayResult` renders. -/
inductive RenderedView
  | fallbackView (withLinks : Bool)
  | structuredView
deriving DecidableEq, Repr

/-- The renderer `displayResult` (lines 270–313): `!data || !data.identity ||
data.identity.confidence < 0.4` renders the "not identified" view (with
the fallback links when `data?.search_fallback` is present), else the
structured fields are rendered. -/
def displayResult (data : Option ResultData) : RenderedView :=
  match data with
  | none => RenderedView.fallbackView false
  | some d =>
    match d.identity with
    | none => RenderedView.fallbackView d.search_fallback
    | some i =>
      if jsLtThreshold i.confidence then RenderedView.fallbackView d.search_fallback
      else RenderedView.structuredView

/-! ## Theorems: lookup handler -/

/-- Claim C3: query precedence is evaluated in order with first match
winning — (1) a truthy identity NDC/product code always yields the
product-code query (never the brand-name query), (2) else a 10/11/12-digit
scanned code yields a product-code query on its digits, (3) else a truthy
brand or generic name yields the conjunctive exact-match label query over
the present fields joined with AND, (4) else no query is built, the
handler fetches nothing and responds 200 Not_Found. -/
theorem C3_lookup_precedence (identity : Identity) (barcode : String)
    (fetch : Query → FetchOutcome) :
    (truthy identity.ndc = true ∨ truthy identity.product_ndc = true →
      buildQuery identity barcode =
        some (Query.ndc (if truthy identity.ndc then identity.ndc.getD ""
                         else identity.product_ndc.getD ""))) ∧
    (truthy identity.ndc = false → truthy identity.product_ndc = false →
      ((digitsOnly barcode).length = 10 ∨ (digitsOnly barcode).length = 11 ∨
        (digitsOnly barcode).length = 12) →
      buildQuery identity barcode = some (Query.ndc (digitsOnly barcode))) ∧
    (truthy identity.ndc = false → truthy identity.product_ndc = false →
      ¬((digitsOnly barcode).length = 10 ∨ (digitsOnly barcode).length = 11 ∨
        (digitsOnly barcode).length = 12) →
      truthy identity.brand_name = true ∨ truthy identity.generic_name = true →
      buildQuery identity barcode =
        some (Query.label (String.intercalate "+AND+" (labelParts identity)))) ∧
    (truthy identity.ndc = false → truthy identity.product_ndc = false →
      ¬((digitsOnly barcode).length = 10 ∨ (digitsOnly barcode).length = 11 ∨
        (digitsOnly barcode).length = 12) →
      truthy identity.brand_name = false → truthy identity.generic_name = false →
      buildQuery identity barcode = none ∧
      handler "POST" (RawBody.json ⟨some identity, some barcode⟩) fetch =
        (⟨200, RespBody.notFound⟩, [])) := by
  refine ⟨?_, ?_, ?_, ?_⟩
  · intro h
    unfold buildQuery
    rcases h with h | h <;> simp [h]
  · intro h1 h2 hlen
    have hne : digitsOnly barcode ≠ "" := by
      intro he
      rw [he] at hlen
      simp at hlen
    unfold buildQuery
    simp [h1, h2, hne, hlen]
  · intro h1 h2 hlen hbg
    unfold buildQuery
    rcases hbg with h | h <;> simp [h1, h2, hlen, h]
  · intro h1 h2 hlen h3 h4
    have hq : buildQuery identity barcode = none := by
      unfold buildQuery
      simp [h1, h2, hlen, h3, h4]
    refine ⟨hq, ?_⟩
    simp [handler, parseBody, hq]

/-- Claim C3 witness: with both a product code and a brand name present,
the issued query is the product-code query. -/
theorem C3_lookup_precedence_witness :
    buildQuery
      { emptyIdentity with ndc := some "12345-678-90", brand_name := some "Acme" }
      "" = some (Query.ndc "12345-678-90") := by
  have h := (C3_lookup_precedence
    { emptyIdentity with ndc := some "12345-678-90", brand_name := some "Acme" }
    "" (fun _ => FetchOutcome.reject)).1 (Or.inl (by decide))
  simpa using h

/-- Claim C5: a non-POST request gets status 405; a POST whose body is
present but unparseable gets status 400; every other POST gets status 200
with a body that is either the OK record with drug and sources or
Not_Found. -/
theorem C5_response_statuses (method : String) (body : RawBody)
    (fetch : Query → FetchOutcome) :
    (method ≠ "POST" → (handler method body fetch).1 =
      ⟨405, RespBody.errMethodNotAllowed⟩) ∧
    ((handler "POST" RawBody.malformed fetch).1 = ⟨400, RespBody.errInvalidJson⟩) ∧
    (∀ data, parseBody body = some data →
      (handler "POST" body fetch).1.statusCode = 200 ∧
      ((∃ drug sources, (handler "POST" body fetch).1.body = RespBody.ok drug sources) ∨
        (handler "POST" body fetch).1.body = RespBody.notFound)) := by
  refine ⟨?_, ?_, ?_⟩
  · intro h
    simp [handler, h]
  · simp [handler, parseBody]
  · intro data h
    simp only [handler, if_neg (by simp : ¬("POST" ≠ "POST")), h]
    rcases hq : buildQuery (data.identity.getD emptyIdentity) (data.barcode.getD "") with
      _ | q
    · simp
    · rcases hf : fetch q with _ | ⟨status, results⟩
      · simp [hf]
      · by_cases hs : status = 200
        · subst hs
          rcases results with _ | ⟨r, rest⟩
          · simp [hf]
          · simp [hf]
        · simp [hf, hs]

/-- Claim C5 witness: a GET request is answered 405, a malformed POST body
400, and a parseable POST 200 with an OK-or-Not_Found body. -/
theorem C5_response_statuses_witness :
    (handler "GET" RawBody.empty (fun _ => FetchOutcome.reject)).1 =
      ⟨405, RespBody.errMethodNotAllowed⟩ ∧
    (handler "POST" RawBody.malformed (fun _ => FetchOutcome.reject)).1 =
      ⟨400, RespBody.errInvalidJson⟩ ∧
    (handler "POST" RawBody.empty (fun _ => FetchOutcome.reject)).1.statusCode = 200 := by
  have h := C5_response_statuses "GET" RawBody.empty (fun _ => FetchOutcome.reject)
  have h3 := (C5_response_statuses "POST" RawBody.empty
    (fun _ => FetchOutcome.reject)).2.2 ⟨none, none⟩ rfl
  exact ⟨h.1 (by decide), h.2.1, h3.1⟩

/-- Claim C6: once a query is chosen, a rejected fetch, a non-200
response, and a 200 response with an empty results array each produce the
200 Not_Found response (the handler is a total function: the error is
swallowed, never rethrown). -/
theorem C6_lookup_errors_not_found (identity : Identity) (barcode : String)
    (q : Query) (fetch : Query → FetchOutcome)
    (hq : buildQuery identity barcode = some q) :
    (fetch q = FetchOutcome.reject →
      (handler "POST" (RawBody.json ⟨some identity, some barcode⟩) fetch).1 =
        ⟨200, RespBody.notFound⟩) ∧
    (∀ status results, fetch q = FetchOutcome.resp status results → status ≠ 200 →
      (handler "POST" (RawBody.json ⟨some identity, some barcode⟩) fetch).1 =
        ⟨200, RespBody.notFound⟩) ∧
    (fetch q = FetchOutcome.resp 200 [] →
      (handler "POST" (RawBody.json ⟨some identity, some barcode⟩) fetch).1 =
        ⟨200, RespBody.notFound⟩) := by
  refine ⟨?_, ?_, ?_⟩
  · intro hf
    simp [handler, parseBody, hq, hf]
  · intro status results hf hs
    simp [handler, parseBody, hq, hf, hs]
  · intro hf
    simp [handler, parseBody, hq, hf]

/-- Claim C6 witness: at a concrete identity whose query is chosen, each
of the three failure shapes yields 200 Not_Found. -/
theorem C6_lookup_errors_not_found_witness :
    (handler "POST"
      (RawBody.json ⟨some { emptyIdentity with ndc := some "12345-678-90" }, some ""⟩)
      (fun _ => FetchOutcome.reject)).1 = ⟨200, RespBody.notFound⟩ ∧
    (handler "POST"
      (RawBody.json ⟨some { emptyIdentity with ndc := some "12345-678-90" }, some ""⟩)
      (fun _ => FetchOutcome.resp 404 [])).1 = ⟨200, RespBody.notFound⟩ ∧
    (handler "POST"
      (RawBody.json ⟨some { emptyIdentity with ndc := some "12345-678-90" }, some ""⟩)
      (fun _ => FetchOutcome.resp 200 [])).1 = ⟨200, RespBody.notFound⟩ := by
  refine ⟨?_, ?_, ?_⟩
  · exact (C6_lookup_errors_not_found _ "" (Query.ndc "12345-678-90") _ (by decide)).1 rfl
  · exact (C6_lookup_errors_not_found _ "" (Query.ndc "12345-678-90") _
      (by decide)).2.1 404 [] rfl (by decide)
  · exact (C6_lookup_errors_not_found _ "" (Query.ndc "12345-678-90") _ (by decide)).2.2 rfl

/-- Claim C7: with no truthy identity NDC/product code, the barcode
triggers a product-code query exactly when its digit string has length
10, 11 or 12. -/
theorem C7_barcode_digit_gate (identity : Identity) (barcode : String)
    (h1 : truthy identity.ndc = false) (h2 : truthy identity.product_ndc = false) :
    (∃ c, buildQuery identity barcode = some (Query.ndc c)) ↔
      ((digitsOnly barcode).length = 10 ∨ (digitsOnly barcode).length = 11 ∨
        (digitsOnly barcode).length = 12) := by
  constructor
  · rintro ⟨c, hc⟩
    by_contra hlen
    unfold buildQuery at hc
    simp [h1, h2, hlen] at hc
  · intro hlen
    have hne : digitsOnly barcode ≠ "" := by
      intro he
      rw [he] at hlen
      simp at hlen
    refine ⟨digitsOnly barcode, ?_⟩
    unfold buildQuery
    simp [h1, h2, hne, hlen]

/-- Claim C7 witness: an 11-digit barcode with an empty identity triggers
the product-code query; a 13-digit one does not. -/
theorem C7_barcode_digit_gate_witness :
    (∃ c, buildQuery emptyIdentity "01234567890" = some (Query.ndc c)) ∧
    ¬(∃ c, buildQuery emptyIdentity "0123456789012" = some (Query.ndc c)) := by
  constructor
  · exact (C7_barcode_digit_gate emptyIdentity "01234567890" rfl rfl).mpr
      (Or.inr (Or.inl (by decide)))
  · intro h
    have := (C7_barcode_digit_gate emptyIdentity "0123456789012" rfl rfl).mp h
    revert this
    decide

/-- Claim C10: a POST with an empty (zero-byte) body is not malformed:
`JSON.parse('{}')` yields the empty object, identity and barcode default,
no query is built, and the response is 200 Not_Found with no fetch. -/
theorem C10_empty_body_not_found (fetch : Query → FetchOutcome) :
    handler "POST" RawBody.empty fetch = (⟨200, RespBody.notFound⟩, []) := by
  simp [handler, parseBody, buildQuery, digitsOnly, emptyIdentity, truthy]

/-! ## Theorems: image normalization -/

/-- Rounding `Math.round (a * 1024 / b)` stays within the 1024 bound when `a ≤ b`. -/
lemma jsRound_scale_le (a b : Nat) (hb : 0 < b) (hab : a ≤ b) :
    jsRound (a * 1024) b ≤ 1024 := by
  unfold jsRound
  have h2b : 0 < 2 * b := by omega
  have hlt : (2 * (a * 1024) + b) / (2 * b) < 1025 := by
    rw [Nat.div_lt_iff_lt_mul h2b]
    omega
  omega

/-- Claim C4: when the long edge exceeds 1024, the output long edge is
exactly 1024 and the short edge is `round(short * 1024 / long)`; when both
edges are within 1024, the dimensions are unchanged; the output is always
JPEG at quality 0.8. -/
theorem C4_normalization_scaling (w h : Nat) :
    (1024 < max w h →
      max (compressImage w h).width (compressImage w h).height = 1024 ∧
      min (compressImage w h).width (compressImage w h).height =
        jsRound (min w h * 1024) (max w h)) ∧
    (max w h ≤ 1024 →
      (compressImage w h).width = w ∧ (compressImage w h).height = h) ∧
    (compressImage w h).mime = "image/jpeg" ∧
    (compressImage w h).quality = 0.8 := by
  unfold compressImage
  by_cases h1 : w > h ∧ w > 1024
  · rw [if_pos h1]
    obtain ⟨hwh, hw⟩ := h1
    have hle : jsRound (h * 1024) w ≤ 1024 :=
      jsRound_scale_le h w (by omega) (by omega)
    refine ⟨fun _ => ⟨?_, ?_⟩, fun hmax => absurd hmax (by omega), rfl, rfl⟩
    · simpa using Nat.max_eq_left hle
    · have hmn : min w h = h := Nat.min_eq_right (by omega)
      have hmx : max w h = w := Nat.max_eq_left (by omega)
      rw [hmn, hmx]
      simpa using Nat.min_eq_right hle
  · rw [if_neg h1]
    by_cases h2 : h > 1024
    · rw [if_pos h2]
      have hwh : w ≤ h := by omega
      have hle : jsRound (w * 1024) h ≤ 1024 :=
        jsRound_scale_le w h (by omega) hwh
      refine ⟨fun _ => ⟨?_, ?_⟩, fun hmax => absurd hmax (by omega), rfl, rfl⟩
      · simpa using Nat.max_eq_right hle
      · have hmn : min w h = w := Nat.min_eq_left hwh
        have hmx : max w h = h := Nat.max_eq_right hwh
        rw [hmn, hmx]
        simpa using Nat.min_eq_left hle
    · rw [if_neg h2]
      exact ⟨fun hc => absurd hc (by omega), fun _ => ⟨rfl, rfl⟩, rfl, rfl⟩

/-- Claim C4 witness: a 2048×1000 input scales to 1024×500 and a 800×600
input is unchanged, always JPEG at 0.8. -/
theorem C4_normalization_scaling_witness :
    (max (compressImage 2048 1000).width (compressImage 2048 1000).height = 1024 ∧
      min (compressImage 2048 1000).width (compressImage 2048 1000).height =
        jsRound (min 2048 1000 * 1024) (max 2048 1000)) ∧
    ((compressImage 800 600).width = 800 ∧ (compressImage 800 600).height = 600) ∧
    (compressImage 800 600).quality = 0.8 := by
  refine ⟨(C4_normalization_scaling 2048 1000).1 (by decide), ?_, ?_⟩
  · exact (C4_normalization_scaling 800 600).2.1 (by decide)
  · exact (C4_normalization_scaling 800 600).2.2.2

/-! ## Theorems: result presentation -/

/-- Claim C8: a missing record, a record with no identity, and an identity
whose confidence is below 0.4 each render the "not confidently identified"
fallback view; an identity with confidence at or above 0.4 renders the
structured fields. -/
theorem C8_confidence_threshold (data : Option ResultData) :
    (data = none → ∃ b, displayResult data = RenderedView.fallbackView b) ∧
    (∀ d, data = some d → d.identity = none →
      ∃ b, displayResult data = RenderedView.fallbackView b) ∧
    (∀ d i c, data = some d → d.identity = some i → i.confidence = some c →
      c < 0.4 → ∃ b, displayResult data = RenderedView.fallbackView b) ∧
    (∀ d i c, data = some d → d.identity = some i → i.confidence = some c →
      0.4 ≤ c → displayResult data = RenderedView.structuredView) := by
  refine ⟨?_, ?_, ?_, ?_⟩
  · rintro rfl
    exact ⟨false, rfl⟩
  · rintro d rfl hid
    exact ⟨d.search_fallback, by simp [displayResult, hid]⟩
  · rintro d i c rfl hid hc hlt
    refine ⟨d.search_fallback, ?_⟩
    simp [displayResult, hid, jsLtThreshold, hc, hlt]
  · rintro d i c rfl hid hc hge
    simp [displayResult, hid, jsLtThreshold, hc, not_lt.mpr hge]

/-- Claim C8 witness: confidence 0.3 renders the fallback view, 0.95 the
structured view. -/
theorem C8_confidence_threshold_witness :
    (∃ b, displayResult (some ⟨some ⟨some "Thuoc", some (3/10)⟩, true⟩) =
      RenderedView.fallbackView b) ∧
    displayResult (some ⟨some ⟨some "Thuoc", some (95/100)⟩, true⟩) =
      RenderedView.structuredView := by
  constructor
  · exact (C8_confidence_threshold (some ⟨some ⟨some "Thuoc", some (3/10)⟩, true⟩)).2.2.1
      _ _ (3/10) rfl rfl rfl (by norm_num)
  · exact (C8_confidence_threshold (some ⟨some ⟨some "Thuoc", some (95/100)⟩, true⟩)).2.2.2
      _ _ (95/100) rfl rfl rfl (by norm_num)

/-! ## Theorems: wizard state machine -/

/-- The end state of a confirm that finds a pending draft: append, advance,
persist the combined record, clear the draft, pick the next phase. -/
lemma confirm_eq (s : AppState) (d : String) (hd : s.currentDraft = some d) :
    confirm s =
      { imageCounter := s.imageCounter + 1,
        capturedImages := s.capturedImages ++ [d],
        currentDraft := none,
        storedSession := some ⟨s.imageCounter + 1, s.capturedImages ++ [d]⟩,
        storedKey := s.storedKey,
        phase := if 2 ≤ s.imageCounter + 1 then Phase.finalizing
                 else showCurrentStepPhase (s.imageCounter + 1) } := by
  simp [confirm, confirmTrace, hd]

/-- A reviewing state used to instantiate the wizard theorems. -/
def exConfirmState : AppState :=
  { imageCounter := 0, capturedImages := [], currentDraft := some "img0",
    storedSession := none, storedKey := none, phase := Phase.reviewing }

/-- Claim C1 counterexample: at a concrete `Reviewing(0, draft)` state the
confirm handler advances the in-memory counter at trace position 1 and
only writes the store at position 2, so the claimed persist-before-advance
ordering fails. -/
theorem C1_persist_order_counterexample : ¬ persistBeforeAdvance exConfirmState := by
  rintro ⟨i, j, hi, hj, hij⟩
  have h2 : firstPersistIdx exConfirmState = some 2 := by decide
  have h1 : firstAdvanceIdx exConfirmState = some 1 := by decide
  rw [h2] at hi
  rw [h1] at hj
  injection hi with hi
  injection hj with hj
  omega

/-- Claim C1 (amended): confirm appends the draft, advances the in-memory
counter (trace position 1), and then writes the combined record
`{imageCounter, capturedImages}` to the store (trace position 2); every
record the trace persists satisfies `imageCounter = capturedImages.length`,
and the handler ends in `Idle(i+1)` when `i+1 < 2` and in `Finalizing`
when `i+1 = 2`. -/
theorem C1_confirm_persist_and_transition (s : AppState) (d : String)
    (hd : s.currentDraft = some d)
    (hinv : s.imageCounter = s.capturedImages.length)
    (hs : s.storedSession ≠ some ⟨s.imageCounter + 1, s.capturedImages ++ [d]⟩) :
    (confirm s).capturedImages = s.capturedImages ++ [d] ∧
    (confirm s).imageCounter = s.imageCounter + 1 ∧
    (confirm s).storedSession = some ⟨s.imageCounter + 1, s.capturedImages ++ [d]⟩ ∧
    (confirm s).currentDraft = none ∧
    (∀ t ∈ confirmTrace s, ∀ sess, t.storedSession = some sess →
      t.storedSession = s.storedSession ∨ sess.imageCounter = sess.capturedImages.length) ∧
    firstAdvanceIdx s = some 1 ∧
    firstPersistIdx s = some 2 ∧
    (s.imageCounter + 1 < 2 → (confirm s).phase = Phase.idle) ∧
    (s.imageCounter + 1 = 2 → (confirm s).phase = Phase.finalizing) := by
  have hc := confirm_eq s d hd
  refine ⟨by rw [hc], by rw [hc], by rw [hc], by rw [hc], ?_, ?_, ?_, ?_, ?_⟩
  · intro t ht sess hsess
    simp only [confirmTrace, hd, List.mem_cons, List.not_mem_nil, or_false] at ht
    rcases ht with rfl | rfl | rfl | rfl | rfl
    · exact Or.inl rfl
    · exact Or.inl rfl
    all_goals
      refine Or.inr ?_
      simp only [Option.some.injEq] at hsess
      rw [← hsess]
      simp [hinv]
  · simp [firstAdvanceIdx, confirmTrace, hd, List.findIdx?_cons, List.findIdx?_nil]
  · have hne : ¬ (some (⟨s.imageCounter + 1, s.capturedImages ++ [d]⟩ : Session) =
        s.storedSession) := fun he => hs he.symm
    simp [firstPersistIdx, confirmTrace, hd, List.findIdx?_cons, List.findIdx?_nil, hne]
  · intro hlt
    rw [hc]
    have h2 : ¬ (2 ≤ s.imageCounter + 1) := by omega
    simp [h2, showCurrentStepPhase]
  · intro heq
    rw [hc]
    simp [heq]

/-- Claim C1 witness: confirming the first draft persists the combined
record `{1, [draft]}` and moves to `Idle(1)`. -/
theorem C1_confirm_persist_and_transition_witness :
    (confirm exConfirmState).storedSession = some ⟨1, ["img0"]⟩ ∧
    (confirm exConfirmState).phase = Phase.idle := by
  have h := C1_confirm_persist_and_transition exConfirmState "img0" rfl rfl (by decide)
  exact ⟨by simpa using h.2.2.1, h.2.2.2.2.2.2.2.1 (by decide)⟩

/-- Retake-then-recapture cycles change neither the confirmed images, nor
the counter, nor the persisted state. -/
lemma retakeCycles_frame (imgs : List String) (s : AppState) :
    (retakeCycles imgs s).capturedImages = s.capturedImages ∧
    (retakeCycles imgs s).imageCounter = s.imageCounter ∧
    (retakeCycles imgs s).storedSession = s.storedSession := by
  induction imgs generalizing s with
  | nil => exact ⟨rfl, rfl, rfl⟩
  | cons img rest ih =>
    simpa [retakeCycles, capture, retake] using ih (capture img (retake s))

/-- Claim C2 counterexample: in the script.js variant cited by the claim,
pressing retake at the review of the two captured images discards both and
resets the step index to 0 — neither the image sequence nor the step index
is unchanged. -/
theorem C2_retake_counterexample :
    (retakeB ⟨2, ["front", "back"]⟩).capturedImages ≠ ["front", "back"] ∧
    (retakeB ⟨2, ["front", "back"]⟩).step ≠ 2 := by
  decide

/-- Claim C2 (amended): in the part_001 wizard, retake discards only the
pending draft — images, counter and persisted session are untouched — and
any number of retake/recapture cycles followed by a final capture and a
confirm grows `capturedImages` by exactly one. -/
theorem C2_retake_frame (s : AppState) (img : String) (imgs : List String) :
    (retake s).capturedImages = s.capturedImages ∧
    (retake s).imageCounter = s.imageCounter ∧
    (retake s).currentDraft = none ∧
    (retake s).storedSession = s.storedSession ∧
    (s.imageCounter < 2 → (retake s).phase = Phase.idle) ∧
    (confirm (capture img (retakeCycles imgs (retake s)))).capturedImages.length =
      s.capturedImages.length + 1 := by
  refine ⟨rfl, rfl, rfl, rfl, ?_, ?_⟩
  · intro hlt
    simp [retake, showCurrentStepPhase]
    omega
  · have hcy := retakeCycles_frame imgs (retake s)
    have hc := confirm_eq (capture img (retakeCycles imgs (retake s))) img rfl
    rw [hc]
    simp [capture] at hcy ⊢
    rw [hcy.1]
    simp [retake]

/-- Claim C2 witness: from `Reviewing(1, draft)`, a retake keeps the one
confirmed image and returns to the prompt; two further retake cycles and a
final confirm yield exactly two confirmed images. -/
theorem C2_retake_frame_witness :
    (retake ⟨1, ["a"], some "d0", some ⟨1, ["a"]⟩, none, Phase.reviewing⟩).capturedImages =
      ["a"] ∧
    (retake ⟨1, ["a"], some "d0", some ⟨1, ["a"]⟩, none, Phase.reviewing⟩).phase =
      Phase.idle ∧
    (confirm (capture "c"
      (retakeCycles ["b1", "b2"]
        (retake ⟨1, ["a"], some "d0", some ⟨1, ["a"]⟩, none, Phase.reviewing⟩)))).capturedImages.length = 2 := by
  have h := C2_retake_frame ⟨1, ["a"], some "d0", some ⟨1, ["a"]⟩, none, Phase.reviewing⟩
    "c" ["b1", "b2"]
  exact ⟨h.1, h.2.2.2.2.1 (by decide), h.2.2.2.2.2⟩

/-- Claim C9: the reset branch deletes exactly the persisted session
record, returns the in-memory counter and image list to their initial
empty values, and neither deletes nor modifies the stored credential. -/
theorem C9_reset_clears_session_only (s : AppState) :
    (resetFlow s).storedSession = none ∧
    (resetFlow s).imageCounter = 0 ∧
    (resetFlow s).capturedImages = [] ∧
    (resetFlow s).storedKey = s.storedKey ∧
    (resetFlow s).currentDraft = s.currentDraft ∧
    (resetFlow s).phase = Phase.idle := by
  exact ⟨rfl, rfl, rfl, rfl, rfl, rfl⟩

end DrugScanner
